import Mathlib

/-
Shallow embedding of src/src/ssl/ssl.rs (the mesalink C-ABI boundary layer).

Modelling conventions:
- A raw pointer of type `*mut T` is `Option T`: `none` is the null pointer,
  `some obj` is a pointer to `obj` (whose `magic` field may be wrong).
- The process-wide error registry (module `ssl::err`, not under src/) is a
  `List ErrorCode` threaded through every call; `mesalink_push_error` pushes
  onto it.
- External collaborators (rustls sessions and streams, TcpStream, webpki
  roots) are modelled at their interface: records of their construction
  arguments, since this layer never inspects their internals.
- A reachable unchecked `unwrap` of a `None` field, and `Box::from_raw` on a
  null pointer, are modelled as the `panic` / `fault` outcome.
- The result of an external stream read/write is an oracle parameter `io`
  passed to the call: the boundary code is a function of that result.
-/

namespace Mesalink

/-- The magic tag constant from ssl.rs: 0xc0d4c5a9. -/
def MAGIC : Nat := 0xc0d4c5a9

/-- Error kinds pushed by this layer; only `General` is used in ssl.rs. -/
inductive ErrorCode where
  | General
deriving DecidableEq

/-- Modelled from the spec: `mesalink_push_error` from module `ssl::err` is not
under src/; per the spec it records the most recent error kind pushed by any
boundary call into a process-wide registry, modelled as a list with the most
recent entry first. -/
def mesalink_push_error (e : ErrorCode) (errs : List ErrorCode) : List ErrorCode :=
  e :: errs

/-- Protocol versions this layer ever constructs (rustls enum, restricted to
the two values ssl.rs uses). -/
inductive ProtocolVersion where
  | TLSv1_2
  | TLSv1_3
deriving DecidableEq

/-- `MESALINK_METHOD` from ssl.rs. -/
structure MESALINK_METHOD where
  magic : Nat
  tls_version : ProtocolVersion
deriving DecidableEq

/-- Trust-anchor sets that can be added to a client config; the only one in
scope is the embedded webpki `TLS_SERVER_ROOTS` bundle. -/
inductive TrustAnchorSet where
  | webpkiRoots
deriving DecidableEq

/-- The embedded well-known root bundle (external constant from webpki_roots). -/
def TLS_SERVER_ROOTS : TrustAnchorSet := TrustAnchorSet.webpkiRoots

/-- rustls `ClientConfig`, modelled at the interface this layer touches:
the version whitelist and the root store. -/
structure ClientConfig where
  versions : List ProtocolVersion
  root_store : List TrustAnchorSet
deriving DecidableEq

/-- External `ClientConfig::new()`: fresh config, no roots loaded yet. -/
def ClientConfig.new : ClientConfig :=
  { versions := [], root_store := [] }

/-- External `root_store.add_server_trust_anchors`: appends an anchor set. -/
def ClientConfig.add_server_trust_anchors (c : ClientConfig) (t : TrustAnchorSet) :
    ClientConfig :=
  { c with root_store := c.root_store ++ [t] }

/-- rustls `ServerConfig`, modelled at the interface this layer touches:
the version whitelist and the server identity material (certificate chain),
which ssl.rs never loads. -/
structure ServerConfig where
  versions : List ProtocolVersion
  certs : List Nat
deriving DecidableEq

/-- External `ServerConfig::new()`: fresh config, no identity material. -/
def ServerConfig.new : ServerConfig :=
  { versions := [], certs := [] }

/-- `MESALINK_CTX` from ssl.rs (the `Arc` wrappers are modelled as plain
values since the configs are immutable after construction). -/
structure MESALINK_CTX where
  magic : Nat
  client_config : ClientConfig
  server_config : ServerConfig
deriving DecidableEq

/-- A C string (`CStr`): its byte content, NUL terminator excluded. -/
structure CStrM where
  bytes : List Nat
deriving DecidableEq

/-- Whether a byte is a UTF-8 continuation byte (0x80 to 0xBF). -/
def isCont (b : Nat) : Bool :=
  decide (0x80 ≤ b ∧ b ≤ 0xBF)

/-- UTF-8 validity of a byte sequence, per the table Rust str decoding uses. -/
def utf8Valid : List Nat → Bool
  | [] => true
  | b :: rest =>
    if b ≤ 0x7F then utf8Valid rest
    else if 0xC2 ≤ b ∧ b ≤ 0xDF then
      match rest with
      | b1 :: rest2 => isCont b1 && utf8Valid rest2
      | [] => false
    else if b = 0xE0 then
      match rest with
      | b1 :: b2 :: rest2 =>
        decide (0xA0 ≤ b1 ∧ b1 ≤ 0xBF) && isCont b2 && utf8Valid rest2
      | _ => false
    else if (0xE1 ≤ b ∧ b ≤ 0xEC) ∨ (0xEE ≤ b ∧ b ≤ 0xEF) then
      match rest with
      | b1 :: b2 :: rest2 => isCont b1 && isCont b2 && utf8Valid rest2
      | _ => false
    else if b = 0xED then
      match rest with
      | b1 :: b2 :: rest2 =>
        decide (0x80 ≤ b1 ∧ b1 ≤ 0x9F) && isCont b2 && utf8Valid rest2
      | _ => false
    else if b = 0xF0 then
      match rest with
      | b1 :: b2 :: b3 :: rest2 =>
        decide (0x90 ≤ b1 ∧ b1 ≤ 0xBF) && isCont b2 && isCont b3 && utf8Valid rest2
      | _ => false
    else if 0xF1 ≤ b ∧ b ≤ 0xF3 then
      match rest with
      | b1 :: b2 :: b3 :: rest2 =>
        isCont b1 && isCont b2 && isCont b3 && utf8Valid rest2
      | _ => false
    else if b = 0xF4 then
      match rest with
      | b1 :: b2 :: b3 :: rest2 =>
        decide (0x80 ≤ b1 ∧ b1 ≤ 0x8F) && isCont b2 && isCont b3 && utf8Valid rest2
      | _ => false
    else false

/-- `CStr::to_str`: succeeds exactly when the bytes are valid UTF-8, yielding
a view of the same bytes (a Rust `&str` is its UTF-8 bytes). -/
def cstr_to_str (c : CStrM) : Option (List Nat) :=
  if utf8Valid c.bytes then some c.bytes else none

/-- `std::net::TcpStream`, modelled at the interface this layer touches:
the raw descriptor it was built from. -/
structure TcpStream where
  fd : Int
deriving DecidableEq

/-- External `TcpStream::from_raw_fd`. -/
def TcpStream.from_raw_fd (fd : Int) : TcpStream :=
  { fd := fd }

/-- rustls `ClientSession`, modelled at the interface: the config and the
hostname it was constructed with. -/
structure ClientSession where
  config : ClientConfig
  hostname : List Nat
deriving DecidableEq

/-- External `ClientSession::new`. -/
def ClientSession.new (config : ClientConfig) (hostname_str : List Nat) :
    ClientSession :=
  { config := config, hostname := hostname_str }

/-- rustls `ServerSession`, modelled at the interface: the config it was
constructed with. -/
structure ServerSession where
  config : ServerConfig
deriving DecidableEq

/-- External `ServerSession::new`. -/
def ServerSession.new (config : ServerConfig) : ServerSession :=
  { config := config }

/-- The session engine held by a handle: tagged variant over the two roles
(in the source this is the generic parameter `S`; only one role is ever
active per handle). -/
inductive SessionM where
  | client (s : ClientSession)
  | server (s : ServerSession)
deriving DecidableEq

/-- rustls `Stream`, the composed encrypted duplex stream, modelled at the
interface: the session and socket it joins. -/
structure StreamM where
  sess : SessionM
  sock : TcpStream
deriving DecidableEq

/-- External `Stream::new`. -/
def StreamM.new (sess : SessionM) (sock : TcpStream) : StreamM :=
  { sess := sess, sock := sock }

/-- `MESALINK_SSL` from ssl.rs. The `&mut MESALINK_CTX` back-reference and
the borrowed `&CStr` hostname are modelled as values: this layer never
mutates the context or the hostname bytes through them. -/
structure MESALINK_SSL where
  magic : Nat
  context : MESALINK_CTX
  hostname : Option CStrM
  socket : Option TcpStream
  session : Option SessionM
  stream : Option StreamM
deriving DecidableEq

/-- `SslConstants::SslFailure as c_int`. -/
def sslFailure : Int := 0

/-- `SslConstants::SslSuccess as c_int`. -/
def sslSuccess : Int := 1

/-- The `count as c_int` cast: a usize value truncated to a 32-bit signed
integer. -/
def intCast32 (n : Nat) : Int :=
  let m : Nat := n % 2 ^ 32
  if m < 2 ^ 31 then (m : Int) else (m : Int) - 2 ^ 32

/-- Outcome of a status-returning boundary call: a normal return carrying the
`c_int` code, the (possibly updated) pointee of the handle argument, and the
error registry; or a panic from a reachable unchecked `unwrap`. -/
inductive Outcome where
  | ret (code : Int) (ssl : Option MESALINK_SSL) (errs : List ErrorCode)
  | panic
deriving DecidableEq

/-- Outcome of a destructor call: a completed free carrying the error
registry, or an unrecoverable fault (`Box::from_raw` on a null pointer). -/
inductive FreeOutcome where
  | freed (errs : List ErrorCode)
  | fault
deriving DecidableEq

/-- `mesalink_SSLv3_client_method`: returns null unconditionally. -/
def mesalink_SSLv3_client_method (errs : List ErrorCode) :
    Option MESALINK_METHOD × List ErrorCode :=
  (none, errs)

/-- `mesalink_TLSv1_client_method`: returns null unconditionally. -/
def mesalink_TLSv1_client_method (errs : List ErrorCode) :
    Option MESALINK_METHOD × List ErrorCode :=
  (none, errs)

/-- `mesalink_TLSv1_1_client_method`: returns null unconditionally. -/
def mesalink_TLSv1_1_client_method (errs : List ErrorCode) :
    Option MESALINK_METHOD × List ErrorCode :=
  (none, errs)

/-- `mesalink_TLSv1_2_client_method`: allocates a tagged method object and
returns it (ownership passes to the caller via `Box::into_raw`). -/
def mesalink_TLSv1_2_client_method (errs : List ErrorCode) :
    Option MESALINK_METHOD × List ErrorCode :=
  (some { magic := MAGIC, tls_version := ProtocolVersion.TLSv1_2 }, errs)

/-- `mesalink_TLSv1_3_client_method`: allocates a tagged method object and
returns it (ownership passes to the caller via `Box::into_raw`). -/
def mesalink_TLSv1_3_client_method (errs : List ErrorCode) :
    Option MESALINK_METHOD × List ErrorCode :=
  (some { magic := MAGIC, tls_version := ProtocolVersion.TLSv1_3 }, errs)

/-- Result of `mesalink_CTX_new`: the returned context pointer, whether the
method object was consumed (`Box::from_raw` ran on it), and the registry. -/
structure CtxNewResult where
  ret : Option MESALINK_CTX
  methodFreed : Bool
  errs : List ErrorCode
deriving DecidableEq

/-- `mesalink_CTX_new`: sanitize the method pointer (null or bad magic gives
null, silently); on success build both configs restricted to the method
version, load the webpki roots into the client config, consume the method
object, and return a fresh tagged context. -/
def mesalink_CTX_new (method_ptr : Option MESALINK_METHOD) (errs : List ErrorCode) :
    CtxNewResult :=
  match method_ptr with
  | none => { ret := none, methodFreed := false, errs := errs }
  | some method =>
    if method.magic ≠ MAGIC then { ret := none, methodFreed := false, errs := errs }
    else
      let client_config := { ClientConfig.new with versions := [method.tls_version] }
      let client_config := client_config.add_server_trust_anchors TLS_SERVER_ROOTS
      let server_config := { ServerConfig.new with versions := [method.tls_version] }
      let context : MESALINK_CTX :=
        { magic := MAGIC, client_config := client_config, server_config := server_config }
      { ret := some context, methodFreed := true, errs := errs }

/-- `mesalink_SSL_new`: sanitize the context pointer; on success allocate a
handle with all optional fields empty. -/
def mesalink_SSL_new (ctx_ptr : Option MESALINK_CTX) (errs : List ErrorCode) :
    Option MESALINK_SSL × List ErrorCode :=
  match ctx_ptr with
  | none => (none, errs)
  | some ctx =>
    if ctx.magic ≠ MAGIC then (none, errs)
    else
      (some { magic := MAGIC, context := ctx, hostname := none, socket := none,
              session := none, stream := none }, errs)

/-- `mesalink_SSL_set_tlsext_host_name`: sanitize the handle; a null hostname
pointer pushes a General error and fails; otherwise store the borrowed string
(no encoding validation) and succeed. -/
def mesalink_SSL_set_tlsext_host_name (ssl_ptr : Option MESALINK_SSL)
    (hostname_ptr : Option CStrM) (errs : List ErrorCode) : Outcome :=
  match ssl_ptr with
  | none => Outcome.ret sslFailure none errs
  | some ssl =>
    if ssl.magic ≠ MAGIC then Outcome.ret sslFailure (some ssl) errs
    else
      match hostname_ptr with
      | none =>
        Outcome.ret sslFailure (some ssl) (mesalink_push_error ErrorCode.General errs)
      | some hostname =>
        Outcome.ret sslSuccess (some { ssl with hostname := some hostname }) errs

/-- `mesalink_SSL_set_fd`: sanitize the handle; take ownership of the raw
descriptor as a TcpStream and store it; succeed unconditionally after that. -/
def mesalink_SSL_set_fd (ssl_ptr : Option MESALINK_SSL) (fd : Int)
    (errs : List ErrorCode) : Outcome :=
  match ssl_ptr with
  | none => Outcome.ret sslFailure none errs
  | some ssl =>
    if ssl.magic ≠ MAGIC then Outcome.ret sslFailure (some ssl) errs
    else
      let socket := TcpStream.from_raw_fd fd
      Outcome.ret sslSuccess (some { ssl with socket := some socket }) errs

/-- `mesalink_SSL_connect`: sanitize the handle; if a hostname is set and
decodes as UTF-8, build a fresh client session from the context client
config, store it, then compose it with the socket — via an unchecked
`unwrap` that panics when no socket was set — into the stream and succeed;
otherwise push a General error and fail, leaving the handle unchanged. -/
def mesalink_SSL_connect (ssl_ptr : Option MESALINK_SSL) (errs : List ErrorCode) :
    Outcome :=
  match ssl_ptr with
  | none => Outcome.ret sslFailure none errs
  | some ssl =>
    if ssl.magic ≠ MAGIC then Outcome.ret sslFailure (some ssl) errs
    else
      match ssl.hostname with
      | some hostname =>
        match cstr_to_str hostname with
        | some hostname_str =>
          let session := ClientSession.new ssl.context.client_config hostname_str
          let ssl1 := { ssl with session := some (SessionM.client session) }
          match ssl1.socket with
          | some sock =>
            let stream := StreamM.new (SessionM.client session) sock
            Outcome.ret sslSuccess (some { ssl1 with stream := some stream }) errs
          | none => Outcome.panic
        | none =>
          Outcome.ret sslFailure (some ssl) (mesalink_push_error ErrorCode.General errs)
      | none =>
        Outcome.ret sslFailure (some ssl) (mesalink_push_error ErrorCode.General errs)

/-- `mesalink_SSL_accept`: sanitize the handle; build a fresh server session
from the context server config, store it, then compose it with the socket —
via an unchecked `unwrap` that panics when no socket was set — into the
stream and succeed. -/
def mesalink_SSL_accept (ssl_ptr : Option MESALINK_SSL) (errs : List ErrorCode) :
    Outcome :=
  match ssl_ptr with
  | none => Outcome.ret sslFailure none errs
  | some ssl =>
    if ssl.magic ≠ MAGIC then Outcome.ret sslFailure (some ssl) errs
    else
      let session := ServerSession.new ssl.context.server_config
      let ssl1 := { ssl with session := some (SessionM.server session) }
      match ssl1.socket with
      | some sock =>
        let stream := StreamM.new (SessionM.server session) sock
        Outcome.ret sslSuccess (some { ssl1 with stream := some stream }) errs
      | none => Outcome.panic

/-- `mesalink_SSL_read`: sanitize the handle; unwrap the stream — panicking
when none exists — then delegate to the external stream read, whose outcome
is the oracle `io`: on Ok the byte count is returned (cast to c_int), on Err
a General error is pushed and the failure sentinel returned. The buffer
content is external to the boundary logic; only its length is modelled. -/
def mesalink_SSL_read (ssl_ptr : Option MESALINK_SSL) (buf_len : Nat)
    (io : Except Unit Nat) (errs : List ErrorCode) : Outcome :=
  match ssl_ptr with
  | none => Outcome.ret sslFailure none errs
  | some ssl =>
    if ssl.magic ≠ MAGIC then Outcome.ret sslFailure (some ssl) errs
    else
      match ssl.stream with
      | none => Outcome.panic
      | some _ =>
        match io with
        | Except.ok count => Outcome.ret (intCast32 count) (some ssl) errs
        | Except.error _ =>
          Outcome.ret sslFailure (some ssl) (mesalink_push_error ErrorCode.General errs)

/-- `mesalink_SSL_write`: sanitize the handle; unwrap the stream — panicking
when none exists — then delegate to the external stream write, whose outcome
is the oracle `io`: on Ok the byte count is returned (cast to c_int), on Err
a General error is pushed and the failure sentinel returned. -/
def mesalink_SSL_write (ssl_ptr : Option MESALINK_SSL) (buf_len : Nat)
    (io : Except Unit Nat) (errs : List ErrorCode) : Outcome :=
  match ssl_ptr with
  | none => Outcome.ret sslFailure none errs
  | some ssl =>
    if ssl.magic ≠ MAGIC then Outcome.ret sslFailure (some ssl) errs
    else
      match ssl.stream with
      | none => Outcome.panic
      | some _ =>
        match io with
        | Except.ok count => Outcome.ret (intCast32 count) (some ssl) errs
        | Except.error _ =>
          Outcome.ret sslFailure (some ssl) (mesalink_push_error ErrorCode.General errs)

/-- `mesalink_CTX_free`: runs `Box::from_raw` on the pointer with no null or
magic check; on a null pointer that is undefined behaviour, modelled as a
fault; any non-null pointee is freed unconditionally. -/
def mesalink_CTX_free (ctx_ptr : Option MESALINK_CTX) (errs : List ErrorCode) :
    FreeOutcome :=
  match ctx_ptr with
  | none => FreeOutcome.fault
  | some _ => FreeOutcome.freed errs

/-- `mesalink_SSL_free`: runs `Box::from_raw` on the pointer with no null or
magic check; on a null pointer that is undefined behaviour, modelled as a
fault; any non-null pointee is freed unconditionally. -/
def mesalink_SSL_free (ssl_ptr : Option MESALINK_SSL) (errs : List ErrorCode) :
    FreeOutcome :=
  match ssl_ptr with
  | none => FreeOutcome.fault
  | some _ => FreeOutcome.freed errs

instance : DecidableEq (Except Unit Nat) := fun a b =>
  match a, b with
  | Except.ok x, Except.ok y =>
    if h : x = y then isTrue (by rw [h])
    else isFalse (by intro hh; cases hh; exact h rfl)
  | Except.ok _, Except.error _ => isFalse (by intro hh; cases hh)
  | Except.error _, Except.ok _ => isFalse (by intro hh; cases hh)
  | Except.error e, Except.error f => isTrue (by cases e; cases f; rfl)

/-- A public boundary call on a live session handle, with external outcomes
(the stream I/O result) supplied as oracle data. -/
inductive BoundaryCall where
  | setHostname (hostname_ptr : Option CStrM)
  | setFd (fd : Int)
  | connect
  | accept
  | read (buf_len : Nat) (io : Except Unit Nat)
  | write (buf_len : Nat) (io : Except Unit Nat)
deriving DecidableEq

/-- State of a handle across a sequence of boundary calls: the pointee and
the error registry, or a terminal panic. -/
inductive TraceState where
  | live (ssl : MESALINK_SSL) (errs : List ErrorCode)
  | panicked
deriving DecidableEq

/-- One boundary call applied to a live handle, dispatching to the embedded
entry points above. -/
def stepCall : TraceState → BoundaryCall → TraceState
  | TraceState.panicked, _ => TraceState.panicked
  | TraceState.live ssl errs, c =>
    let out :=
      match c with
      | BoundaryCall.setHostname h => mesalink_SSL_set_tlsext_host_name (some ssl) h errs
      | BoundaryCall.setFd fd => mesalink_SSL_set_fd (some ssl) fd errs
      | BoundaryCall.connect => mesalink_SSL_connect (some ssl) errs
      | BoundaryCall.accept => mesalink_SSL_accept (some ssl) errs
      | BoundaryCall.read n io => mesalink_SSL_read (some ssl) n io errs
      | BoundaryCall.write n io => mesalink_SSL_write (some ssl) n io errs
    match out with
    | Outcome.ret _ (some ssl2) errs2 => TraceState.live ssl2 errs2
    | Outcome.ret _ none errs2 => TraceState.live ssl errs2
    | Outcome.panic => TraceState.panicked

/-- The session field of a trace state, when live. -/
def sessionOfT : TraceState → Option SessionM
  | TraceState.live ssl _ => ssl.session
  | TraceState.panicked => none

/-- The stream field of a trace state, when live. -/
def streamOfT : TraceState → Option StreamM
  | TraceState.live ssl _ => ssl.stream
  | TraceState.panicked => none

/-- A concrete context as built by `mesalink_CTX_new` from a TLS 1.2 method. -/
def demoCtx : MESALINK_CTX :=
  { magic := MAGIC,
    client_config := { versions := [ProtocolVersion.TLSv1_2],
                       root_store := [TrustAnchorSet.webpkiRoots] },
    server_config := { versions := [ProtocolVersion.TLSv1_2], certs := [] } }

/-- A freshly constructed session handle over `demoCtx`. -/
def demoSsl0 : MESALINK_SSL :=
  { magic := MAGIC, context := demoCtx, hostname := none, socket := none,
    session := none, stream := none }

/-- A session handle with a hostname set but no transport: the failing input
for the unchecked-transport gap. -/
def c1Ssl : MESALINK_SSL :=
  { demoSsl0 with hostname := some { bytes := [0x61] } }

/-- A server-side established handle: socket, session and stream all present. -/
def demoStream : StreamM :=
  StreamM.new (SessionM.server (ServerSession.new demoCtx.server_config))
    (TcpStream.from_raw_fd 3)

/-- An established session handle over `demoCtx`. -/
def demoSslEst : MESALINK_SSL :=
  { demoSsl0 with
    socket := some (TcpStream.from_raw_fd 3),
    session := some (SessionM.server (ServerSession.new demoCtx.server_config)),
    stream := some demoStream }

/-- `intCast32` is the identity below 2 to the 31. -/
theorem intCast32_of_lt (n : Nat) (h : n < 2 ^ 31) : intCast32 n = (n : Int) := by
  have h32 : n < 2 ^ 32 := lt_trans h (by norm_num)
  simp only [intCast32]
  rw [Nat.mod_eq_of_lt h32, if_pos h]

/-- C1: on a tag-valid handle whose transport was never set, connect (with a
valid hostname configured) and accept both reach the unchecked unwrap of the
absent socket and hit the unrecoverable panic, instead of returning the
failure sentinel with an error pushed as the spec requires. -/
theorem C1_connect_accept_without_transport_fault :
    mesalink_SSL_connect (some c1Ssl) [] = Outcome.panic ∧
    mesalink_SSL_accept (some c1Ssl) [] = Outcome.panic := by
  constructor <;> rfl

/-- C2 counterexample: the destructors perform no pointer validation — a null
pointer is passed straight to the unchecked free and faults, and a pointee
with a mismatched magic tag is freed (dereferenced) anyway rather than being
rejected silently. -/
theorem C2_free_counterexample :
    mesalink_CTX_free none [] = FreeOutcome.fault ∧
    mesalink_SSL_free none [] = FreeOutcome.fault ∧
    mesalink_CTX_free (some { demoCtx with magic := 0 }) [] = FreeOutcome.freed [] ∧
    mesalink_SSL_free (some { demoSsl0 with magic := 0 }) [] = FreeOutcome.freed [] := by
  refine ⟨rfl, rfl, rfl, rfl⟩

/-- C2 (amended): every entry point that receives a handle pointer except the
two destructors first performs the null check and then the magic-tag check,
and on either failing returns the kind-appropriate failure sentinel (null for
pointer-returning calls, the failure integer for status-returning calls)
without dereferencing further and without pushing any error; the destructors
validate nothing and free unconditionally. -/
theorem C2_sanitize_checked_entry_points (errs : List ErrorCode)
    (m : MESALINK_METHOD) (hm : m.magic ≠ MAGIC)
    (ctx : MESALINK_CTX) (hctx : ctx.magic ≠ MAGIC)
    (ssl : MESALINK_SSL) (hssl : ssl.magic ≠ MAGIC)
    (h : Option CStrM) (fd : Int) (n : Nat) (io : Except Unit Nat) :
    mesalink_CTX_new none errs = { ret := none, methodFreed := false, errs := errs } ∧
    mesalink_SSL_new none errs = (none, errs) ∧
    mesalink_SSL_set_tlsext_host_name none h errs = Outcome.ret sslFailure none errs ∧
    mesalink_SSL_set_fd none fd errs = Outcome.ret sslFailure none errs ∧
    mesalink_SSL_connect none errs = Outcome.ret sslFailure none errs ∧
    mesalink_SSL_accept none errs = Outcome.ret sslFailure none errs ∧
    mesalink_SSL_read none n io errs = Outcome.ret sslFailure none errs ∧
    mesalink_SSL_write none n io errs = Outcome.ret sslFailure none errs ∧
    mesalink_CTX_new (some m) errs = { ret := none, methodFreed := false, errs := errs } ∧
    mesalink_SSL_new (some ctx) errs = (none, errs) ∧
    mesalink_SSL_set_tlsext_host_name (some ssl) h errs =
      Outcome.ret sslFailure (some ssl) errs ∧
    mesalink_SSL_set_fd (some ssl) fd errs = Outcome.ret sslFailure (some ssl) errs ∧
    mesalink_SSL_connect (some ssl) errs = Outcome.ret sslFailure (some ssl) errs ∧
    mesalink_SSL_accept (some ssl) errs = Outcome.ret sslFailure (some ssl) errs ∧
    mesalink_SSL_read (some ssl) n io errs = Outcome.ret sslFailure (some ssl) errs ∧
    mesalink_SSL_write (some ssl) n io errs = Outcome.ret sslFailure (some ssl) errs := by
  refine ⟨rfl, rfl, rfl, rfl, rfl, rfl, rfl, rfl, ?_, ?_, ?_, ?_, ?_, ?_, ?_, ?_⟩ <;>
    simp [mesalink_CTX_new, mesalink_SSL_new, mesalink_SSL_set_tlsext_host_name,
          mesalink_SSL_set_fd, mesalink_SSL_connect, mesalink_SSL_accept,
          mesalink_SSL_read, mesalink_SSL_write, hm, hctx, hssl]

/-- C2 witness: the amended sanitization property at concrete bad-magic
objects and concrete arguments. -/
theorem C2_sanitize_witness :
    mesalink_CTX_new none [] = { ret := none, methodFreed := false, errs := [] } ∧
    mesalink_SSL_new none [] = (none, []) ∧
    mesalink_SSL_set_tlsext_host_name none none [] = Outcome.ret sslFailure none [] ∧
    mesalink_SSL_set_fd none 3 [] = Outcome.ret sslFailure none [] ∧
    mesalink_SSL_connect none [] = Outcome.ret sslFailure none [] ∧
    mesalink_SSL_accept none [] = Outcome.ret sslFailure none [] ∧
    mesalink_SSL_read none 4 (Except.ok 0) [] = Outcome.ret sslFailure none [] ∧
    mesalink_SSL_write none 4 (Except.ok 0) [] = Outcome.ret sslFailure none [] ∧
    mesalink_CTX_new (some { magic := 0, tls_version := ProtocolVersion.TLSv1_2 }) [] =
      { ret := none, methodFreed := false, errs := [] } ∧
    mesalink_SSL_new (some { demoCtx with magic := 0 }) [] = (none, []) ∧
    mesalink_SSL_set_tlsext_host_name (some { demoSsl0 with magic := 0 }) none [] =
      Outcome.ret sslFailure (some { demoSsl0 with magic := 0 }) [] ∧
    mesalink_SSL_set_fd (some { demoSsl0 with magic := 0 }) 3 [] =
      Outcome.ret sslFailure (some { demoSsl0 with magic := 0 }) [] ∧
    mesalink_SSL_connect (some { demoSsl0 with magic := 0 }) [] =
      Outcome.ret sslFailure (some { demoSsl0 with magic := 0 }) [] ∧
    mesalink_SSL_accept (some { demoSsl0 with magic := 0 }) [] =
      Outcome.ret sslFailure (some { demoSsl0 with magic := 0 }) [] ∧
    mesalink_SSL_read (some { demoSsl0 with magic := 0 }) 4 (Except.ok 0) [] =
      Outcome.ret sslFailure (some { demoSsl0 with magic := 0 }) [] ∧
    mesalink_SSL_write (some { demoSsl0 with magic := 0 }) 4 (Except.ok 0) [] =
      Outcome.ret sslFailure (some { demoSsl0 with magic := 0 }) [] :=
  C2_sanitize_checked_entry_points []
    { magic := 0, tls_version := ProtocolVersion.TLSv1_2 } (by decide)
    { demoCtx with magic := 0 } (by decide)
    { demoSsl0 with magic := 0 } (by decide)
    none 3 4 (Except.ok 0)

/-- C8: the three unsupported-version method constructors return null
unconditionally and leave the error registry unchanged, allocating nothing. -/
theorem C8_unsupported_methods (errs : List ErrorCode) :
    mesalink_SSLv3_client_method errs = (none, errs) ∧
    mesalink_TLSv1_client_method errs = (none, errs) ∧
    mesalink_TLSv1_1_client_method errs = (none, errs) :=
  ⟨rfl, rfl, rfl⟩

/-- C9: the two supported-version method constructors return a non-null
method object carrying the validity magic tag and exactly the requested
protocol version, handing it to the caller, with the registry unchanged. -/
theorem C9_supported_methods (errs : List ErrorCode) :
    mesalink_TLSv1_2_client_method errs =
      (some { magic := MAGIC, tls_version := ProtocolVersion.TLSv1_2 }, errs) ∧
    mesalink_TLSv1_3_client_method errs =
      (some { magic := MAGIC, tls_version := ProtocolVersion.TLSv1_3 }, errs) :=
  ⟨rfl, rfl⟩

/-- C6: on any tag-valid method object, context construction returns a
non-null tagged context whose client config is restricted to the method
version and preloaded with the embedded webpki root set, and whose server
config is restricted to the same version with no identity material; the
method object is consumed on this (the only) outcome path for valid input. -/
theorem C6_ctx_new_configs_and_consumes_method (m : MESALINK_METHOD)
    (errs : List ErrorCode) (hm : m.magic = MAGIC) :
    mesalink_CTX_new (some m) errs =
      { ret := some { magic := MAGIC,
                      client_config := { versions := [m.tls_version],
                                         root_store := [TrustAnchorSet.webpkiRoots] },
                      server_config := { versions := [m.tls_version], certs := [] } },
        methodFreed := true, errs := errs } := by
  simp [mesalink_CTX_new, hm, ClientConfig.new, ClientConfig.add_server_trust_anchors,
        ServerConfig.new, TLS_SERVER_ROOTS]

/-- C6 witness: context construction from the TLS 1.2 method constructor. -/
theorem C6_witness :
    mesalink_CTX_new (some { magic := MAGIC, tls_version := ProtocolVersion.TLSv1_2 }) [] =
      { ret := some demoCtx, methodFreed := true, errs := [] } :=
  C6_ctx_new_configs_and_consumes_method
    { magic := MAGIC, tls_version := ProtocolVersion.TLSv1_2 } [] rfl

/-- C7: on any tag-valid handle, set_hostname with a null string pointer
pushes a General error and returns the failure sentinel leaving the handle
unchanged; with any non-null string — validated or not, since no encoding
check happens here — it stores the borrowed string and returns success with
the registry unchanged. -/
theorem C7_set_hostname (ssl : MESALINK_SSL) (errs : List ErrorCode) (c : CStrM)
    (hm : ssl.magic = MAGIC) :
    mesalink_SSL_set_tlsext_host_name (some ssl) none errs =
      Outcome.ret sslFailure (some ssl) (mesalink_push_error ErrorCode.General errs) ∧
    mesalink_SSL_set_tlsext_host_name (some ssl) (some c) errs =
      Outcome.ret sslSuccess (some { ssl with hostname := some c }) errs := by
  constructor <;> simp [mesalink_SSL_set_tlsext_host_name, hm]

/-- C7 witness: a fresh handle, with a byte string that is not valid UTF-8 —
stored anyway, since encoding validation is deferred to connect. -/
theorem C7_witness :
    mesalink_SSL_set_tlsext_host_name (some demoSsl0) none [] =
      Outcome.ret sslFailure (some demoSsl0) [ErrorCode.General] ∧
    mesalink_SSL_set_tlsext_host_name (some demoSsl0) (some { bytes := [0xFF] }) [] =
      Outcome.ret sslSuccess (some { demoSsl0 with hostname := some { bytes := [0xFF] } }) [] :=
  C7_set_hostname demoSsl0 [] { bytes := [0xFF] } rfl

/-- C3: on any tag-valid handle whose hostname is unset or does not decode as
UTF-8, connect pushes a General error, returns the failure sentinel, and
returns the pointee exactly as it was before the call — hostname, transport,
engine and composed stream fields all unchanged. -/
theorem C3_connect_invalid_hostname (ssl : MESALINK_SSL) (errs : List ErrorCode)
    (hm : ssl.magic = MAGIC)
    (hh : ssl.hostname = none ∨ ∃ c, ssl.hostname = some c ∧ cstr_to_str c = none) :
    mesalink_SSL_connect (some ssl) errs =
      Outcome.ret sslFailure (some ssl) (mesalink_push_error ErrorCode.General errs) := by
  rcases hh with h | ⟨c, hc, hinv⟩
  · simp [mesalink_SSL_connect, hm, h]
  · simp [mesalink_SSL_connect, hm, hc, hinv]

/-- C3 witness: a handle whose stored hostname bytes are not valid UTF-8. -/
theorem C3_witness :
    mesalink_SSL_connect (some { demoSsl0 with hostname := some { bytes := [0xFF] } }) [] =
      Outcome.ret sslFailure (some { demoSsl0 with hostname := some { bytes := [0xFF] } })
        [ErrorCode.General] :=
  C3_connect_invalid_hostname { demoSsl0 with hostname := some { bytes := [0xFF] } } []
    rfl (Or.inr ⟨{ bytes := [0xFF] }, rfl, rfl⟩)

/-- C4: on any tag-valid handle whose composed stream exists, read and write
delegate to the stream and return the reported byte count on an Ok outcome
with the registry untouched; on an engine-reported error they push a General
error and return the failure sentinel; an Ok zero-byte read comes back as the
ordinary successful count 0, not through the error path. -/
theorem C4_read_write_established (ssl : MESALINK_SSL) (errs : List ErrorCode)
    (n : Nat) (st : StreamM) (hm : ssl.magic = MAGIC) (hs : ssl.stream = some st) :
    (∀ count : Nat, count < 2 ^ 31 →
      mesalink_SSL_read (some ssl) n (Except.ok count) errs =
        Outcome.ret (count : Int) (some ssl) errs ∧
      mesalink_SSL_write (some ssl) n (Except.ok count) errs =
        Outcome.ret (count : Int) (some ssl) errs) ∧
    mesalink_SSL_read (some ssl) n (Except.error ()) errs =
      Outcome.ret sslFailure (some ssl) (mesalink_push_error ErrorCode.General errs) ∧
    mesalink_SSL_write (some ssl) n (Except.error ()) errs =
      Outcome.ret sslFailure (some ssl) (mesalink_push_error ErrorCode.General errs) ∧
    mesalink_SSL_read (some ssl) n (Except.ok 0) errs =
      Outcome.ret 0 (some ssl) errs := by
  refine ⟨?_, ?_, ?_, ?_⟩
  · intro count hcount
    constructor <;>
      simp [mesalink_SSL_read, mesalink_SSL_write, hm, hs, intCast32_of_lt count hcount]
  · simp [mesalink_SSL_read, hm, hs]
  · simp [mesalink_SSL_write, hm, hs]
  · simp [mesalink_SSL_read, hm, hs, intCast32_of_lt 0 (by norm_num)]

/-- C4 witness: an established handle, a successful 5-byte write, a failing
read pushing a General error, and a successful zero-byte read. -/
theorem C4_witness :
    mesalink_SSL_write (some demoSslEst) 5 (Except.ok 5) [] =
      Outcome.ret (5 : Int) (some demoSslEst) [] ∧
    mesalink_SSL_read (some demoSslEst) 5 (Except.error ()) [] =
      Outcome.ret sslFailure (some demoSslEst) [ErrorCode.General] ∧
    mesalink_SSL_read (some demoSslEst) 5 (Except.ok 0) [] =
      Outcome.ret 0 (some demoSslEst) [] :=
  ⟨((C4_read_write_established demoSslEst [] 5 demoStream rfl rfl).1 5 (by norm_num)).2,
   (C4_read_write_established demoSslEst [] 5 demoStream rfl rfl).2.1,
   (C4_read_write_established demoSslEst [] 5 demoStream rfl rfl).2.2.2⟩

/-- C10: on any tag-valid handle without a composed stream, read and write
reach the unchecked unwrap of the absent stream and panic rather than
returning the failure sentinel; with a stream present the panic branch is
unreachable, so the calls are total exactly under the Established
precondition. -/
theorem C10_read_write_unwrap_stream (ssl : MESALINK_SSL) (errs : List ErrorCode)
    (n : Nat) (io : Except Unit Nat) (hm : ssl.magic = MAGIC) :
    (ssl.stream = none →
      mesalink_SSL_read (some ssl) n io errs = Outcome.panic ∧
      mesalink_SSL_write (some ssl) n io errs = Outcome.panic) ∧
    (∀ st, ssl.stream = some st →
      mesalink_SSL_read (some ssl) n io errs ≠ Outcome.panic ∧
      mesalink_SSL_write (some ssl) n io errs ≠ Outcome.panic) := by
  constructor
  · intro hs
    constructor <;> simp [mesalink_SSL_read, mesalink_SSL_write, hm, hs]
  · intro st hs
    constructor <;> cases io <;>
      simp [mesalink_SSL_read, mesalink_SSL_write, hm, hs]

/-- C10 witness: a fresh handle with no stream panics on read. -/
theorem C10_witness :
    mesalink_SSL_read (some demoSsl0) 4 (Except.ok 0) [] = Outcome.panic :=
  ((C10_read_write_unwrap_stream demoSsl0 [] 4 (Except.ok 0) rfl).1 rfl).1

/-- C5 (amended): once the engine and stream exist, no boundary call other
than connect or accept replaces them — set_hostname, set_transport, read and
write all leave the session and stream fields untouched; a further connect or
accept call, however, does reconstruct them. -/
theorem C5_engine_replaced_only_by_connect_accept (ssl : MESALINK_SSL)
    (errs : List ErrorCode) (c : BoundaryCall)
    (hc : c ≠ BoundaryCall.connect ∧ c ≠ BoundaryCall.accept) :
    ∀ ssl2 errs2, stepCall (TraceState.live ssl errs) c = TraceState.live ssl2 errs2 →
      ssl2.session = ssl.session ∧ ssl2.stream = ssl.stream := by
  intro ssl2 errs2 hstep
  cases c with
  | connect => exact absurd rfl hc.1
  | accept => exact absurd rfl hc.2
  | setHostname h =>
    by_cases hm : ssl.magic = MAGIC
    · cases h with
      | none =>
        simp [stepCall, mesalink_SSL_set_tlsext_host_name, hm] at hstep
        obtain ⟨h1, h2⟩ := hstep
        subst h1
        exact ⟨rfl, rfl⟩
      | some cstr =>
        simp [stepCall, mesalink_SSL_set_tlsext_host_name, hm] at hstep
        obtain ⟨h1, h2⟩ := hstep
        subst h1
        exact ⟨rfl, rfl⟩
    · simp [stepCall, mesalink_SSL_set_tlsext_host_name, hm] at hstep
      obtain ⟨h1, h2⟩ := hstep
      subst h1
      exact ⟨rfl, rfl⟩
  | setFd fd =>
    by_cases hm : ssl.magic = MAGIC
    · simp [stepCall, mesalink_SSL_set_fd, hm] at hstep
      obtain ⟨h1, h2⟩ := hstep
      subst h1
      exact ⟨rfl, rfl⟩
    · simp [stepCall, mesalink_SSL_set_fd, hm] at hstep
      obtain ⟨h1, h2⟩ := hstep
      subst h1
      exact ⟨rfl, rfl⟩
  | read n io =>
    by_cases hm : ssl.magic = MAGIC
    · cases hs : ssl.stream with
      | none => simp [stepCall, mesalink_SSL_read, hm, hs] at hstep
      | some st =>
        cases io with
        | ok count =>
          simp [stepCall, mesalink_SSL_read, hm, hs] at hstep
          obtain ⟨h1, h2⟩ := hstep
          subst h1
          exact ⟨rfl, hs⟩
        | error e =>
          simp [stepCall, mesalink_SSL_read, hm, hs] at hstep
          obtain ⟨h1, h2⟩ := hstep
          subst h1
          exact ⟨rfl, hs⟩
    · simp [stepCall, mesalink_SSL_read, hm] at hstep
      obtain ⟨h1, h2⟩ := hstep
      subst h1
      exact ⟨rfl, rfl⟩
  | write n io =>
    by_cases hm : ssl.magic = MAGIC
    · cases hs : ssl.stream with
      | none => simp [stepCall, mesalink_SSL_write, hm, hs] at hstep
      | some st =>
        cases io with
        | ok count =>
          simp [stepCall, mesalink_SSL_write, hm, hs] at hstep
          obtain ⟨h1, h2⟩ := hstep
          subst h1
          exact ⟨rfl, hs⟩
        | error e =>
          simp [stepCall, mesalink_SSL_write, hm, hs] at hstep
          obtain ⟨h1, h2⟩ := hstep
          subst h1
          exact ⟨rfl, hs⟩
    · simp [stepCall, mesalink_SSL_write, hm] at hstep
      obtain ⟨h1, h2⟩ := hstep
      subst h1
      exact ⟨rfl, rfl⟩

/-- The established demo handle after a set_fd call with descriptor 5. -/
def demoSslEstFd5 : MESALINK_SSL :=
  { demoSslEst with socket := some (TcpStream.from_raw_fd 5) }

/-- C5 witness: a set_fd call on an established handle leaves the session
and stream fields of the stepped handle untouched. -/
theorem C5_witness :
    demoSslEstFd5.session = demoSslEst.session ∧
    demoSslEstFd5.stream = demoSslEst.stream :=
  C5_engine_replaced_only_by_connect_accept demoSslEst [] (BoundaryCall.setFd 5)
    ⟨by decide, by decide⟩ demoSslEstFd5 [] (by rfl)

/-- First call sequence for the C5 counterexample: configure hostname 0x61,
set the transport, connect. -/
def c5CallsA : List BoundaryCall :=
  [BoundaryCall.setHostname (some { bytes := [0x61] }), BoundaryCall.setFd 3,
   BoundaryCall.connect]

/-- Second call sequence for the C5 counterexample: change the hostname to
0x62 and connect again. -/
def c5CallsB : List BoundaryCall :=
  [BoundaryCall.setHostname (some { bytes := [0x62] }), BoundaryCall.connect]

/-- Trace state after the first sequence: an engine exists. -/
def c5Trace1 : TraceState :=
  List.foldl stepCall (TraceState.live demoSsl0 []) c5CallsA

/-- Trace state after continuing with the second sequence. -/
def c5Trace2 : TraceState :=
  List.foldl stepCall c5Trace1 c5CallsB

/-- C5 counterexample: after a successful connect constructed the engine, a
later set_hostname plus connect on the same handle replaces both the engine
and the composed stream with new ones — the claimed never-reconstructed
invariant fails on this public call sequence. -/
theorem C5_counterexample :
    (sessionOfT c5Trace1).isSome = true ∧ (sessionOfT c5Trace2).isSome = true ∧
    sessionOfT c5Trace2 ≠ sessionOfT c5Trace1 ∧
    streamOfT c5Trace2 ≠ streamOfT c5Trace1 := by decide

end Mesalink
